import Mathlib

/-!
# Verification of the PlotLine orchestration core

Shallow embedding of the orchestration substrate of the PlotLine backend:
the per-job event bus (`backend/utils/event_emitter.py`), the SSE progress
stream and the background job registry (`backend/routes/narrative.py`),
the scribe loop of the stage graph (`backend/graph/workflow.py`), and the
rate-limited retrying Gemini gateway (`backend/utils/gemini_client.py`,
`backend/config.py`).
-/

namespace PlotLine

/-! ## Event records and the event-emitter channel map

`EventEmitter` keeps a dict `_queues : Dict[str, asyncio.Queue]`.  We model a
queue by the list of records it buffers (FIFO: `put` appends at the back,
`get` takes from the front), and the dict by a function from task id to
`Option (List Event)`.  A record is the dict
`{"type": event_type, "data": data, "timestamp": ...}` built in `emit`;
the payload and timestamp are opaque to every property we check, so they are
carried as strings. -/

structure Event where
  type : String
  data : String
  timestamp : String
  deriving DecidableEq, Repr

/-- The `_queues` dict of the `EventEmitter` singleton. -/
def Channels : Type := String → Option (List Event)

/-- `EventEmitter.get_queue`: `self._queues.get(task_id)`. -/
def get_queue (m : Channels) (task_id : String) : Option (List Event) :=
  m task_id

/-- `EventEmitter.create_queue`: `self._queues[task_id] = asyncio.Queue()` —
an unconditional dict assignment installing a fresh empty queue. -/
def create_queue (m : Channels) (task_id : String) : Channels :=
  fun k => if k = task_id then some [] else m k

/-- `EventEmitter.emit`: look the queue up; if present, `await queue.put(event)`
(append at the back); if absent, do nothing (only a log line is printed). -/
def emit (m : Channels) (task_id : String) (e : Event) : Channels :=
  match m task_id with
  | some q => fun k => if k = task_id then some (q ++ [e]) else m k
  | none => m

/-- `EventEmitter.cleanup`: `del self._queues[task_id]` guarded by
`if task_id in self._queues`. -/
def cleanup (m : Channels) (task_id : String) : Channels :=
  fun k => if k = task_id then none else m k

/-- The empty channel map (fresh `EventEmitter`). -/
def emptyChannels : Channels := fun _ => none

/-- Publishing a sequence of records one after another on one task id. -/
def publishAll (m : Channels) (task_id : String) (es : List Event) : Channels :=
  es.foldl (fun acc e => emit acc task_id e) m

/-! ## The SSE subscriber (`stream_thinking.event_generator`)

The generator loops `await asyncio.wait_for(queue.get(), timeout=30.0)`,
yields each record, and `break`s after a record whose `type` is
`workflow_complete` or `error`.  Draining an already-buffered queue never
hits the timeout, so the heartbeat branch is not involved; the records the
subscriber observes from a buffer are the buffer's records in FIFO order,
cut after the first terminal one. -/

/-- A record type is terminal when it is `workflow_complete` or `error`
(`if event['type'] in ['workflow_complete', 'error']: break`). -/
def isTerminalType (e : Event) : Bool :=
  e.type = "workflow_complete" || e.type = "error"

/-- Records observed by the subscriber while draining a buffered queue:
FIFO order, stopping after the first terminal record. -/
def drain : List Event → List Event
  | [] => []
  | e :: rest => if isTerminalType e then [e] else e :: drain rest

/-- Outcome of running `event_generator` up to its first decision point. -/
inductive GenOutcome where
  /-- The no-queue branch builds `error_event` whose `timestamp` field
  evaluates `datetime.now()`; `datetime` is never imported in
  `routes/narrative.py`, so this branch raises `NameError` before any
  record is yielded. -/
  | raisedNameError
  /-- Queue found: the records the generator yields from the buffer. -/
  | yielded (events : List Event)
  deriving DecidableEq, Repr

/-- `event_generator`: `queue = event_emitter.get_queue(task_id)`; the
`if not queue` branch evaluates the unbound name `datetime`; otherwise the
drain loop runs. -/
def event_generator (m : Channels) (task_id : String) : GenOutcome :=
  match get_queue m task_id with
  | none => .raisedNameError
  | some q => .yielded (drain q)

/-- Response of the `/stream/{task_id}` endpoint. -/
inductive StreamResponse where
  /-- An HTTP 404 / `NotFoundError` (never produced by this endpoint). -/
  | notFoundError
  /-- A 200 `StreamingResponse` driven by the generator. -/
  | streamBody (gen : GenOutcome)
  deriving DecidableEq, Repr

/-- `stream_thinking` unconditionally returns
`StreamingResponse(event_generator(), ...)`; it raises no `HTTPException`. -/
def stream_thinking (m : Channels) (task_id : String) : StreamResponse :=
  .streamBody (event_generator m task_id)

/-! ## The stage graph and its scribe loop (`backend/graph/workflow.py`)

The `GraphState` TypedDict wraps a `StoryState` plus the loop cursor
`current_node_index`.  Of `StoryState` we carry the fields `node_scribe`
reads or writes: the deconstructed graph's node list, the
`rendered_chunks` dict (node id → prose, a dict assignment that inserts or
overwrites), and the rolling memory (`last_paragraph`,
`running_summary`).  A `NarrativeNode` is identified by its `id`; the
remaining node fields only feed the prompt, which is opaque here, so the
external scribe agent is a parameter `render : NNode → String`. -/

structure NNode where
  id : String
  deriving DecidableEq, Repr

structure GState where
  nodes : List NNode
  rendered_chunks : List (String × String)
  last_paragraph : String
  running_summary : String
  current_node_index : Nat
  deriving DecidableEq, Repr

/-- Dict assignment `d[k] = v`: overwrite the entry if present, else append. -/
def dictInsert (d : List (String × String)) (k v : String) : List (String × String) :=
  if d.any (fun p => p.1 = k) then d.map (fun p => if p.1 = k then (k, v) else p)
  else d ++ [(k, v)]

/-- `node_scribe`: if `idx >= len(nodes)` return the empty update `{}` (no
state change, no model call); otherwise render `nodes[idx]`, store the chunk
under the node's id, append to the rolling memory, and advance the cursor by
one.  The Bool records whether the external scribe agent was called. -/
def node_scribe (render : NNode → String) (s : GState) : GState × Bool :=
  if h : s.current_node_index < s.nodes.length then
    let current_node := s.nodes.get ⟨s.current_node_index, h⟩
    let prose_chunk := render current_node
    ({ s with
        rendered_chunks := dictInsert s.rendered_chunks current_node.id prose_chunk,
        last_paragraph := prose_chunk,
        running_summary := s.running_summary ++ "\n" ++ prose_chunk,
        current_node_index := s.current_node_index + 1 }, true)
  else
    (s, false)

/-- `should_continue_scribing`: `idx < total` routes back to `"scribe"`,
otherwise to `END`. -/
def should_continue_scribing (s : GState) : Bool :=
  s.current_node_index < s.nodes.length

/-- The compiled graph's tail: the unconditional edge `validate → scribe`
enters the scribe node once, and the conditional edge after each scribe run
re-enters it while `should_continue_scribing` holds.  `fuel` bounds the
number of steps (`none` = fuel exhausted); the returned `Nat` counts how
many times the scribe node was invoked. -/
def scribeLoop (render : NNode → String) :
    Nat → GState → Nat → Option (GState × Nat)
  | 0, _, _ => none
  | fuel + 1, s, inv =>
    let s' := (node_scribe render s).1
    if should_continue_scribing s' then scribeLoop render fuel s' (inv + 1)
    else some (s', inv + 1)

/-- Execution from the `validate → scribe` edge to `END`, with fuel
sufficient for the whole node list. -/
def runFromValidate (render : NNode → String) (s : GState) : Option (GState × Nat) :=
  scribeLoop render (s.nodes.length + 1) s 0

/-! ## Job registry and background executor (`backend/routes/narrative.py`)

`JOBS` maps a task id to a record with keys `status` (one of `"queued"`,
`"processing"`, `"completed"`, `"failed"`), optional `result`, optional
`error`.  `start_generation` stores `{"status": "queued"}`;
`run_generation_workflow` sets `"processing"`, invokes the graph, and on
success sets `"completed"` plus the packaged result, on exception sets
`"failed"` plus the error string.  Consecutive registry writes with no
`await` between them (completed+result at lines 100/112, failed+error at
lines 139/140) are a single atomic block under cooperative asyncio
scheduling, so the observable registry snapshots are the states at
suspension points. -/

structure JobResult where
  story_text : String
  graph_nodes : Nat
  chunks : List (String × String)
  deriving DecidableEq, Repr

structure Job where
  status : String
  result : Option JobResult
  error : Option String
  deriving DecidableEq, Repr

/-- The job record stored by `start_generation`:
`JOBS[task_id] = {"status": "queued", "task_id": task_id}` — no result, no
error key. -/
def start_generation_job : Job :=
  { status := "queued", result := none, error := none }

/-- Packaging of the final graph state (lines 103–116):
`full_story = "\n\n".join(story.rendered_chunks.values())`, node count and
the chunk dict. -/
def packageResult (fs : GState) : JobResult :=
  { story_text := String.intercalate "\n\n" (fs.rendered_chunks.map Prod.snd),
    graph_nodes := fs.nodes.length,
    chunks := fs.rendered_chunks }

/-- The graph invocation either returns a final state or raises, carrying
the exception's string form. -/
def WorkflowOutcome : Type := Except String GState

/-- The sequence of registry snapshots for one job, from submission through
the background task: `queued` at submission, `processing` once the executor
enters its `try`, then the atomic terminal write — `completed` + result on
success, `failed` + error on exception. -/
def jobTrace (outcome : WorkflowOutcome) : List Job :=
  let j0 := start_generation_job
  let j1 := { j0 with status := "processing" }
  match outcome with
  | .ok fs => [j0, j1, { j1 with status := "completed", result := some (packageResult fs) }]
  | .error e => [j0, j1, { j1 with status := "failed", error := some e }]

/-- A status string is terminal when it is `"completed"` or `"failed"`. -/
def isTerminalStatus (st : String) : Bool :=
  st = "completed" || st = "failed"

/-! ## The retrying gateway (`backend/utils/gemini_client.py`)

`generate_structured` is decorated with tenacity's
`@retry(stop=stop_after_attempt(3), wait=wait_exponential(...),
retry=retry_if_exception_type(Exception))`.  Every exception the body can
raise (pydantic validation failure, the `ValueError`s for missing
candidates / empty text, any transport error) is an `Exception`, so every
failure kind is retried alike.  `reraise` is left at its default `False`:
after the third failed attempt tenacity raises `RetryError` wrapping the
last attempt, not the last exception itself.  An attempt's result is
abstracted as `outcomes n : Except E A` for attempt number `n`. -/

/-- What surfaces to the caller of a failed gateway call. -/
inductive Surfaced (E : Type) where
  /-- The body's own exception, re-raised unchanged. -/
  | raw (e : E)
  /-- tenacity's `RetryError` wrapping the last failed attempt. -/
  | retryErr (e : E)
  deriving DecidableEq, Repr

/-- tenacity's retry loop: run attempt `n`; on success return the value and
the attempt count; on failure, if retries remain go to attempt `n + 1`,
otherwise (stop condition reached, `reraise=False`) surface
`RetryError(last attempt)`. -/
def retryGo {E A : Type} (outcomes : Nat → Except E A) :
    Nat → Nat → Except (Surfaced E) A × Nat
  | n, remaining =>
    match outcomes n with
    | .ok a => (.ok a, n)
    | .error e =>
      match remaining with
      | 0 => (.error (.retryErr e), n)
      | r + 1 => retryGo outcomes (n + 1) r

/-- `generate_structured` under `stop_after_attempt(3)`: attempt 1 with two
retries remaining. -/
def generate_structured_retry {E A : Type} (outcomes : Nat → Except E A) :
    Except (Surfaced E) A × Nat :=
  retryGo outcomes 1 2

/-! ## The token bucket (`TokenBucket` in `backend/utils/gemini_client.py`)

Time and token counts are exact rationals.  `acquire` runs under one lock,
so a sequence of calls is serialized; `refill` is the lazy top-up performed
at the head of each loop iteration, and a sleeping caller wakes after
exactly the computed wait in this deterministic model. -/

structure Bucket where
  capacity : ℚ
  tokens : ℚ
  refill_rate : ℚ
  last_refill : ℚ
  deriving DecidableEq, Repr

/-- The lazy refill at time `now`: add `elapsed * refill_rate` capped at
capacity, and move `last_refill`, but only when the increment is positive
(`if new_tokens > 0`). -/
def refill (b : Bucket) (now : ℚ) : Bucket :=
  let new_tokens := (now - b.last_refill) * b.refill_rate
  if 0 < new_tokens then
    { b with tokens := min b.capacity (b.tokens + new_tokens), last_refill := now }
  else b

/-- The `while True` body of `acquire`, with fuel: refill; if at least one
token is available take it and return the total time slept so far; else
sleep `(1 - tokens) / refill_rate` and loop at the wake time. -/
def acquireGo : Nat → Bucket → ℚ → ℚ → Option (ℚ × Bucket)
  | 0, _, _, _ => none
  | fuel + 1, b, now, waited =>
    let b' := refill b now
    if 1 ≤ b'.tokens then some (waited, { b' with tokens := b'.tokens - 1 })
    else
      let wait_time := (1 - b'.tokens) / b'.refill_rate
      acquireGo fuel b' (now + wait_time) (waited + wait_time)

/-- `acquire` at time `now`; with capacity ≥ 1 and positive rate, one sleep
always suffices, so fuel 2 is enough. -/
def acquire (b : Bucket) (now : ℚ) : Option (ℚ × Bucket) :=
  acquireGo 2 b now 0

/-- A full bucket as built by `TokenBucket.__init__` at time `t0`. -/
def fullBucket (capacity : ℚ) (rate : ℚ) (t0 : ℚ) : Bucket :=
  { capacity := capacity, tokens := capacity, refill_rate := rate, last_refill := t0 }

/-- `n` consecutive `acquire()` calls, all arriving at time `now`, returning
the list of per-call sleep totals and the final bucket. -/
def acquireSeq (now : ℚ) : Nat → Bucket → Option (List ℚ × Bucket)
  | 0, b => some ([], b)
  | n + 1, b =>
    match acquireSeq now n b with
    | none => none
    | some (ws, b') =>
      match acquire b' now with
      | none => none
      | some (w, b'') => some (ws ++ [w], b'')

/-! ## Safety presets (`backend/config.py`, `generate_structured` config)

`Settings.SAFETY_PRESETS` maps the four safety levels to block thresholds;
`generate_structured` builds one `SafetySetting` per harm category with
threshold `settings.SAFETY_PRESETS.get(safety_level, "BLOCK_NONE")`. -/

/-- `Settings.SAFETY_PRESETS` as a partial lookup. -/
def SAFETY_PRESETS (level : String) : Option String :=
  if level = "none" then some "BLOCK_NONE"
  else if level = "low" then some "BLOCK_ONLY_HIGH"
  else if level = "medium" then some "BLOCK_MEDIUM_AND_ABOVE"
  else if level = "high" then some "BLOCK_LOW_AND_ABOVE"
  else none

/-- `settings.SAFETY_PRESETS.get(safety_level, "BLOCK_NONE")`. -/
def safetyThreshold (level : String) : String :=
  (SAFETY_PRESETS level).getD "BLOCK_NONE"

/-- The `safety_settings` list passed to `GenerateContentConfig`: the four
harm categories, each with the looked-up threshold. -/
def safety_settings (level : String) : List (String × String) :=
  [("HARM_CATEGORY_HARASSMENT", safetyThreshold level),
   ("HARM_CATEGORY_HATE_SPEECH", safetyThreshold level),
   ("HARM_CATEGORY_SEXUALLY_EXPLICIT", safetyThreshold level),
   ("HARM_CATEGORY_DANGEROUS_CONTENT", safetyThreshold level)]

/-! ## Shared lemmas -/

/-- Publishing a list of records onto an existing buffer appends it in order. -/
lemma publishAll_lookup (task_id : String) :
    ∀ (es : List Event) (m : Channels) (buf : List Event),
      m task_id = some buf → publishAll m task_id es task_id = some (buf ++ es)
  | [], m, buf, h => by simpa [publishAll] using h
  | e :: es, m, buf, h => by
    have hm : (emit m task_id e) task_id = some (buf ++ [e]) := by
      simp [emit, h]
    have := publishAll_lookup task_id es (emit m task_id e) (buf ++ [e]) hm
    simpa [publishAll] using this

/-- Draining a buffer none of whose records before the last is terminal
yields the whole buffer. -/
lemma drain_eq_self :
    ∀ (pub : List Event), (∀ e ∈ pub.dropLast, isTerminalType e = false) →
      drain pub = pub
  | [], _ => rfl
  | [e], _ => by by_cases h : isTerminalType e <;> simp [drain, h]
  | e :: f :: rs, hterm => by
    have he : isTerminalType e = false := hterm e (by simp [List.dropLast])
    have ih := drain_eq_self (f :: rs)
      (fun x hx => hterm x (by simp [List.dropLast]; right; simpa using hx))
    have step : drain (e :: f :: rs) = e :: drain (f :: rs) := by
      simp only [drain, he, Bool.false_eq_true, if_false]
    rw [step, ih]

/-! ## Claims -/

/-- C6: publishing on a job id whose channel does not exist (never created,
or already removed by `cleanup`) raises no error and leaves the channel map
— hence every existing channel's contents — unchanged. -/
theorem C6_emit_missing_channel_noop (m : Channels) (task_id : String) (e : Event)
    (h : m task_id = none) :
    emit m task_id e = m ∧
    ∀ (id2 : String) (e2 : Event), emit (cleanup m id2) id2 e2 = cleanup m id2 := by
  constructor
  · simp [emit, h]
  · intro id2 e2
    simp [emit, cleanup]

/-- Witness for C6 at a fresh emitter and task id `"t1"`. -/
theorem C6_emit_missing_channel_noop_witness :
    emit emptyChannels "t1" ⟨"chunk", "d", "ts"⟩ = emptyChannels ∧
    ∀ (id2 : String) (e2 : Event),
      emit (cleanup emptyChannels id2) id2 e2 = cleanup emptyChannels id2 :=
  C6_emit_missing_channel_noop emptyChannels "t1" ⟨"chunk", "d", "ts"⟩ rfl

/-- C7 counterexample: `create_queue` is not idempotent in the claimed
sense — with one record buffered on `"t"`, a second `create_queue` call
replaces the channel (the buffered record is discarded), so the map is not
left observationally equal. -/
theorem C7_counterexample :
    create_queue (emit (create_queue emptyChannels "t") "t" ⟨"node_start", "d", "ts"⟩) "t"
      ≠ emit (create_queue emptyChannels "t") "t" ⟨"node_start", "d", "ts"⟩ := by
  intro h
  have h2 := congrFun h "t"
  simp [create_queue, emit, emptyChannels] at h2

/-- C7 amended: `create_queue` unconditionally installs a fresh empty
queue, discarding any buffered records of an existing channel; it is
idempotent only in the sense that two consecutive calls with no
intervening publish are observationally equal to one. -/
theorem C7_amended_create_queue_resets (m : Channels) (task_id : String) :
    create_queue (create_queue m task_id) task_id = create_queue m task_id ∧
    create_queue m task_id task_id = some [] := by
  constructor
  · funext k
    by_cases h : k = task_id <;> simp [create_queue, h]
  · simp [create_queue]

/-- C8 counterexample: for an id with no channel, the `/stream` endpoint
does not return `NotFoundError`; it returns a normal streaming response. -/
theorem C8_counterexample :
    stream_thinking emptyChannels "unknown" ≠ StreamResponse.notFoundError := by
  simp [stream_thinking]

/-- C8 amended: for every job id with no channel, `stream_thinking` returns
a 200 streaming response (never `NotFoundError`) whose generator takes the
no-channel branch and raises `NameError` while building the intended single
error record, because `datetime` is not imported in `routes/narrative.py`. -/
theorem C8_amended_stream_missing_channel (m : Channels) (task_id : String)
    (h : m task_id = none) :
    stream_thinking m task_id = .streamBody .raisedNameError ∧
    stream_thinking m task_id ≠ .notFoundError := by
  refine ⟨?_, by simp [stream_thinking]⟩
  simp [stream_thinking, event_generator, get_queue, h]

/-- Witness for C8 amended at a fresh emitter and id `"unknown"`. -/
theorem C8_amended_stream_missing_channel_witness :
    stream_thinking emptyChannels "unknown" = .streamBody .raisedNameError ∧
    stream_thinking emptyChannels "unknown" ≠ .notFoundError :=
  C8_amended_stream_missing_channel emptyChannels "unknown" rfl

/-- C9: a `safety_level` outside the preset table (`SAFETY_PRESETS` lookup
misses) makes every one of the four harm-category thresholds fall back to
`BLOCK_NONE`, so the safety configuration is identical to
`safety_level = "none"`. -/
theorem C9_unknown_safety_level_blocks_nothing (level : String)
    (h : SAFETY_PRESETS level = none) :
    safety_settings level = safety_settings "none" ∧
    ∀ p ∈ safety_settings level, p.2 = "BLOCK_NONE" := by
  have ht : safetyThreshold level = "BLOCK_NONE" := by
    simp [safetyThreshold, h]
  constructor
  · simp only [safety_settings, ht]
    simp [safetyThreshold, SAFETY_PRESETS]
  · intro p hp
    simp [safety_settings, ht] at hp
    rcases hp with h1 | h1 | h1 | h1 <;> simp [h1]

/-- Witness for C9 at the out-of-table level `"banana"`. -/
theorem C9_unknown_safety_level_blocks_nothing_witness :
    safety_settings "banana" = safety_settings "none" ∧
    ∀ p ∈ safety_settings "banana", p.2 = "BLOCK_NONE" :=
  C9_unknown_safety_level_blocks_nothing "banana" (by simp [SAFETY_PRESETS])

/-- C10: invoking `node_scribe` with the loop cursor at or past the end of
the node list returns the empty update: the state is unchanged (no chunk
added, memory untouched, cursor not advanced) and no external model call is
made. -/
theorem C10_scribe_past_end_noop (render : NNode → String) (s : GState)
    (h : s.nodes.length ≤ s.current_node_index) :
    node_scribe render s = (s, false) := by
  unfold node_scribe
  rw [dif_neg (by omega)]

/-- Witness for C10 at an empty node list. -/
theorem C10_scribe_past_end_noop_witness :
    node_scribe (fun _ => "") ⟨[], [], "", "", 0⟩ = (⟨[], [], "", "", 0⟩, false) :=
  C10_scribe_past_end_noop (fun _ => "") ⟨[], [], "", "", 0⟩ (by decide)

/-- C5 counterexample: with a terminal-typed record published before a
later record, the subscriber does not observe the whole published
sequence — the generator breaks after the first terminal record, so
publishing `[workflow_complete, chunk]` yields only the first record. -/
theorem C5_counterexample :
    event_generator
        (publishAll (create_queue emptyChannels "j") "j"
          [⟨"workflow_complete", "d1", "t1"⟩, ⟨"chunk", "d2", "t2"⟩]) "j"
      = .yielded [⟨"workflow_complete", "d1", "t1"⟩] ∧
    event_generator
        (publishAll (create_queue emptyChannels "j") "j"
          [⟨"workflow_complete", "d1", "t1"⟩, ⟨"chunk", "d2", "t2"⟩]) "j"
      ≠ .yielded [⟨"workflow_complete", "d1", "t1"⟩, ⟨"chunk", "d2", "t2"⟩] := by
  constructor <;>
    simp [event_generator, get_queue, publishAll, emit, create_queue, emptyChannels,
      drain, isTerminalType]

/-- C5 amended: within one job's channel, a subscriber observes records in
exact publish order up to and including the first terminal-typed record;
in particular, when no published record except possibly the last is
terminal, it observes exactly the published sequence. -/
theorem C5_amended_publish_order (m : Channels) (task_id : String) (pub : List Event)
    (hterm : ∀ e ∈ pub.dropLast, isTerminalType e = false) :
    event_generator (publishAll (create_queue m task_id) task_id pub) task_id
      = .yielded pub := by
  have hbuf : publishAll (create_queue m task_id) task_id pub task_id = some pub := by
    have := publishAll_lookup task_id pub (create_queue m task_id) [] (by simp [create_queue])
    simpa using this
  simp [event_generator, get_queue, hbuf, drain_eq_self pub hterm]

/-- Witness for C5 amended: three non-terminal records on id `"j"` are
observed exactly in publish order. -/
theorem C5_amended_publish_order_witness :
    event_generator
        (publishAll (create_queue emptyChannels "j") "j"
          [⟨"e1", "d1", "t1"⟩, ⟨"e2", "d2", "t2"⟩, ⟨"e3", "d3", "t3"⟩]) "j"
      = .yielded [⟨"e1", "d1", "t1"⟩, ⟨"e2", "d2", "t2"⟩, ⟨"e3", "d3", "t3"⟩] :=
  C5_amended_publish_order emptyChannels "j"
    [⟨"e1", "d1", "t1"⟩, ⟨"e2", "d2", "t2"⟩, ⟨"e3", "d3", "t3"⟩] (by decide)

/-- C1: across the job's registry snapshots, the status moves through
`"queued"`, `"processing"`, then exactly one terminal status (`"completed"`
or `"failed"`); the terminal snapshot is the last one (never overwritten),
and at every terminal snapshot exactly one of the result and error fields
is populated. -/
theorem C1_job_lifecycle (outcome : WorkflowOutcome) :
    ((jobTrace outcome).map Job.status = ["queued", "processing", "completed"] ∨
     (jobTrace outcome).map Job.status = ["queued", "processing", "failed"]) ∧
    (∀ j ∈ jobTrace outcome, isTerminalStatus j.status = true →
      (j.result.isSome ∧ j.error = none) ∨ (j.result = none ∧ j.error.isSome)) ∧
    (∀ j ∈ jobTrace outcome, isTerminalStatus j.status = true →
      (jobTrace outcome).getLast? = some j) := by
  rcases outcome with fs | err <;>
    refine ⟨by simp [jobTrace, start_generation_job], ?_, ?_⟩ <;>
      · intro j hj hterm
        simp [jobTrace, start_generation_job] at hj
        rcases hj with h | h | h <;> subst h <;>
          simp_all [isTerminalStatus, jobTrace, start_generation_job]

/-- Witness for C1 on a concrete successful outcome. -/
theorem C1_job_lifecycle_witness :
    ((jobTrace (.ok ⟨[], [], "", "", 0⟩)).map Job.status
        = ["queued", "processing", "completed"] ∨
     (jobTrace (.ok ⟨[], [], "", "", 0⟩)).map Job.status
        = ["queued", "processing", "failed"]) ∧
    (∀ j ∈ jobTrace (.ok ⟨[], [], "", "", 0⟩), isTerminalStatus j.status = true →
      (j.result.isSome ∧ j.error = none) ∨ (j.result = none ∧ j.error.isSome)) ∧
    (∀ j ∈ jobTrace (.ok ⟨[], [], "", "", 0⟩), isTerminalStatus j.status = true →
      (jobTrace (.ok ⟨[], [], "", "", 0⟩)).getLast? = some j) :=
  C1_job_lifecycle (.ok ⟨[], [], "", "", 0⟩)

/-- A gateway attempt schedule failing on every attempt: used to exhibit
what surfaces after three failed attempts. -/
def outcomesAllFail : Nat → Except String Nat :=
  fun n => .error (if n = 1 then "e1" else if n = 2 then "e2" else "e3")

/-- C2 counterexample: when all three attempts fail, the caller does not
receive the final error unchanged — tenacity (with its default
`reraise=False`) surfaces a `RetryError` wrapping the last attempt. -/
theorem C2_counterexample :
    generate_structured_retry outcomesAllFail = (.error (.retryErr "e3"), 3) ∧
    generate_structured_retry outcomesAllFail ≠ (.error (.raw "e3"), 3) := by
  constructor
  · rfl
  · intro h
    simp [generate_structured_retry, retryGo, outcomesAllFail] at h

/-- C2 amended: at most 3 attempts are ever made; every failure kind is
retried identically (the behaviour below is uniform in the error values);
failures on attempts 1 and 2 followed by success on attempt 3 return the
success value after exactly 3 attempts; failures on all 3 attempts surface
a `RetryError` wrapping the final error (not the final error unchanged). -/
theorem C2_amended_retry (E A : Type) (outcomes : Nat → Except E A) :
    ((generate_structured_retry outcomes).2 ≤ 3) ∧
    (∀ (e1 e2 : E) (a : A),
      outcomes 1 = .error e1 → outcomes 2 = .error e2 → outcomes 3 = .ok a →
      generate_structured_retry outcomes = (.ok a, 3)) ∧
    (∀ (e1 e2 e3 : E),
      outcomes 1 = .error e1 → outcomes 2 = .error e2 → outcomes 3 = .error e3 →
      generate_structured_retry outcomes = (.error (.retryErr e3), 3)) := by
  refine ⟨?_, ?_, ?_⟩
  · rcases h1 : outcomes 1 with e1 | a1
    · rcases h2 : outcomes 2 with e2 | a2
      · rcases h3 : outcomes 3 with e3 | a3 <;>
          simp [generate_structured_retry, retryGo, h1, h2, h3]
      · simp [generate_structured_retry, retryGo, h1, h2]
    · simp [generate_structured_retry, retryGo, h1]
  · intro e1 e2 a h1 h2 h3
    simp [generate_structured_retry, retryGo, h1, h2, h3]
  · intro e1 e2 e3 h1 h2 h3
    simp [generate_structured_retry, retryGo, h1, h2, h3]

/-- A gateway attempt schedule failing twice then succeeding. -/
def outcomesThirdOk : Nat → Except String Nat :=
  fun n => match n with
  | 1 => .error "e1"
  | 2 => .error "e2"
  | _ => .ok 7

/-- Witness for C2 amended: the fail-fail-succeed schedule returns the
success value after exactly 3 attempts. -/
theorem C2_amended_retry_witness :
    generate_structured_retry outcomesThirdOk = (.ok 7, 3) :=
  (C2_amended_retry String Nat outcomesThirdOk).2.1 "e1" "e2" 7 rfl rfl rfl

/-- `node_scribe` invoked past the end of the node list is the empty
update. -/
lemma node_scribe_noop (render : NNode → String) (s : GState)
    (h : s.nodes.length ≤ s.current_node_index) :
    node_scribe render s = (s, false) := by
  unfold node_scribe
  rw [dif_neg (by omega)]

/-- One effective `node_scribe` invocation advances the cursor by exactly
one and preserves the node list. -/
lemma node_scribe_step (render : NNode → String) (s : GState)
    (h : s.current_node_index < s.nodes.length) :
    (node_scribe render s).1.current_node_index = s.current_node_index + 1 ∧
    (node_scribe render s).1.nodes = s.nodes ∧
    (node_scribe render s).2 = true := by
  unfold node_scribe
  rw [dif_pos h]
  exact ⟨rfl, rfl, rfl⟩

/-- Entering the scribe node with the cursor already at the end: one no-op
invocation, then the guard fails and the loop exits. -/
lemma scribeLoop_at_end (render : NNode → String) (s : GState) (inv fuel : Nat)
    (h : s.nodes.length ≤ s.current_node_index) :
    scribeLoop render (fuel + 1) s inv = some (s, inv + 1) := by
  have hs := node_scribe_noop render s h
  simp [scribeLoop, hs, should_continue_scribing, Nat.not_lt.mpr h]

/-- With `n ≥ 1` nodes left to render and enough fuel, the loop performs
exactly `n` further scribe invocations and stops with the cursor at the end
of the node list. -/
lemma scribeLoop_run (render : NNode → String) :
    ∀ (n : Nat), 1 ≤ n → ∀ (s : GState) (inv fuel : Nat), n ≤ fuel →
      s.nodes.length = s.current_node_index + n →
      ∃ sf, scribeLoop render (fuel + 1) s inv = some (sf, inv + n) ∧
        sf.current_node_index = s.nodes.length ∧ sf.nodes = s.nodes
  | 0, h1, _, _, _, _, _ => absurd h1 (by omega)
  | 1, _, s, inv, fuel, _, hlen => by
    have hlt : s.current_node_index < s.nodes.length := by omega
    obtain ⟨hidx, hnodes, _⟩ := node_scribe_step render s hlt
    refine ⟨(node_scribe render s).1, ?_, by omega, hnodes⟩
    simp [scribeLoop, should_continue_scribing, hidx, hnodes]
    omega
  | n + 2, _, s, inv, fuel, hfuel, hlen => by
    have hlt : s.current_node_index < s.nodes.length := by omega
    obtain ⟨hidx, hnodes, _⟩ := node_scribe_step render s hlt
    obtain ⟨f, rfl⟩ : ∃ f, fuel = f + 1 := ⟨fuel - 1, by omega⟩
    have hguard : should_continue_scribing (node_scribe render s).1 = true := by
      simp [should_continue_scribing, hidx, hnodes]
      omega
    obtain ⟨sf, hrun, hend, hn⟩ :=
      scribeLoop_run render (n + 1) (by omega) (node_scribe render s).1 (inv + 1) f
        (by omega) (by rw [hnodes, hidx]; omega)
    refine ⟨sf, ?_, by rw [hend, hnodes], by rw [hn, hnodes]⟩
    have hunfold : scribeLoop render (f + 1 + 1) s inv =
        if should_continue_scribing (node_scribe render s).1 = true then
          scribeLoop render (f + 1) (node_scribe render s).1 (inv + 1)
        else some ((node_scribe render s).1, inv + 1) := rfl
    rw [hunfold, if_pos hguard, hrun]
    have heq : inv + 1 + (n + 1) = inv + (n + 2) := by omega
    rw [heq]

/-- C3 counterexample: with an empty upstream node list (`N = 0`) the
scribe node does not execute zero times — the unconditional
`validate → scribe` edge enters it once (as a no-op) before the terminal
transition. -/
theorem C3_counterexample :
    runFromValidate (fun _ => "") ⟨[], [], "", "", 0⟩ = some (⟨[], [], "", "", 0⟩, 1) ∧
    runFromValidate (fun _ => "") ⟨[], [], "", "", 0⟩ ≠ some (⟨[], [], "", "", 0⟩, 0) := by
  constructor <;> decide

/-- C3 amended: starting the scribe stage with cursor 0 over `N` upstream
nodes, the scribe node is invoked exactly `max 1 N` times before the
terminal transition — exactly `N` of them render and advance the cursor by
one (the guard being re-evaluated after every invocation), and at `N = 0`
the single invocation forced by the unconditional `validate → scribe` edge
is a no-op empty update. -/
theorem C3_amended_loop_count (render : NNode → String) (s : GState)
    (h0 : s.current_node_index = 0) :
    (∃ sf, runFromValidate render s = some (sf, max 1 s.nodes.length) ∧
      sf.current_node_index = s.nodes.length ∧ sf.nodes = s.nodes) ∧
    (∀ s' : GState, s'.current_node_index < s'.nodes.length →
      (node_scribe render s').1.current_node_index = s'.current_node_index + 1) ∧
    (∀ s' : GState, s'.nodes.length ≤ s'.current_node_index →
      node_scribe render s' = (s', false)) := by
  refine ⟨?_, fun s' h => (node_scribe_step render s' h).1,
    fun s' h => node_scribe_noop render s' h⟩
  rcases hN : s.nodes.length with _ | N
  · refine ⟨s, ?_, by omega, rfl⟩
    have := scribeLoop_at_end render s 0 s.nodes.length (by omega)
    simpa [runFromValidate, hN] using this
  · have hrun := scribeLoop_run render (N + 1) (by omega) s 0 s.nodes.length
      (by omega) (by omega)
    obtain ⟨sf, hrun, hend, hn⟩ := hrun
    exact ⟨sf, by simpa [runFromValidate, hN, Nat.max_eq_right (by omega : 1 ≤ N + 1)]
      using hrun, by rw [hend, hN], hn⟩

/-- Witness for C3 amended: one node, cursor 0 — exactly one invocation. -/
theorem C3_amended_loop_count_witness :
    (∃ sf, runFromValidate (fun _ => "p") ⟨[⟨"n1"⟩], [], "", "", 0⟩
        = some (sf, max 1 (GState.nodes ⟨[⟨"n1"⟩], [], "", "", 0⟩).length) ∧
      sf.current_node_index = (GState.nodes ⟨[⟨"n1"⟩], [], "", "", 0⟩).length ∧
      sf.nodes = GState.nodes ⟨[⟨"n1"⟩], [], "", "", 0⟩) ∧
    (∀ s' : GState, s'.current_node_index < s'.nodes.length →
      (node_scribe (fun _ => "p") s').1.current_node_index = s'.current_node_index + 1) ∧
    (∀ s' : GState, s'.nodes.length ≤ s'.current_node_index →
      node_scribe (fun _ => "p") s' = (s', false)) :=
  C3_amended_loop_count (fun _ => "p") ⟨[⟨"n1"⟩], [], "", "", 0⟩ rfl

/-- Refilling with zero elapsed time changes nothing. -/
lemma refill_self (b : Bucket) : refill b b.last_refill = b := by
  simp [refill]

/-- `acquire` unfolded to its two loop iterations. -/
lemma acquire_eq (b : Bucket) (now : ℚ) :
    acquire b now =
      (let b' := refill b now
       if 1 ≤ b'.tokens then some ((0:ℚ), { b' with tokens := b'.tokens - 1 })
       else
         let wait_time := (1 - b'.tokens) / b'.refill_rate
         let b'' := refill b' (now + wait_time)
         if 1 ≤ b''.tokens then
           some (0 + wait_time, { b'' with tokens := b''.tokens - 1 })
         else none) := rfl

/-- An `acquire` arriving (at the bucket's own refill instant) with at
least one token available returns without sleeping and takes one token. -/
lemma acquire_immediate (b : Bucket) (h : 1 ≤ b.tokens) :
    acquire b b.last_refill = some (0, { b with tokens := b.tokens - 1 }) := by
  rw [acquire_eq]
  simp only [refill_self]
  rw [if_pos h]

/-- An `acquire` arriving at the refill instant with an empty bucket of
capacity ≥ 1 sleeps `1 / rate` once, refills to one token at the wake, and
takes it. -/
lemma acquire_empty (b : Bucket) (hr : 0 < b.refill_rate) (hcap : 1 ≤ b.capacity)
    (htok : b.tokens = 0) :
    acquire b b.last_refill = some (1 / b.refill_rate,
      { b with tokens := 0, last_refill := b.last_refill + 1 / b.refill_rate }) := by
  rw [acquire_eq]
  simp only [refill_self]
  rw [if_neg (by rw [htok]; norm_num)]
  have hwait : (1 - b.tokens) / b.refill_rate = 1 / b.refill_rate := by
    rw [htok, sub_zero]
  rw [hwait]
  have hrefill : refill b (b.last_refill + 1 / b.refill_rate) =
      { b with tokens := 1, last_refill := b.last_refill + 1 / b.refill_rate } := by
    unfold refill
    have helapsed : (b.last_refill + 1 / b.refill_rate - b.last_refill) * b.refill_rate
        = 1 := by
      rw [add_sub_cancel_left, one_div, inv_mul_cancel₀ (ne_of_gt hr)]
    rw [helapsed]
    rw [if_pos (by norm_num)]
    rw [htok, zero_add, min_eq_right hcap]
  rw [hrefill]
  rw [if_pos (by norm_num)]
  norm_num

/-- From a full bucket, `k ≤ C` consecutive `acquire()` calls at the same
instant all return without sleeping, leaving `C - k` tokens. -/
lemma acquireSeq_full (C : ℕ) (r t0 : ℚ) :
    ∀ k : ℕ, k ≤ C →
      acquireSeq t0 k (fullBucket C r t0) =
        some (List.replicate k (0:ℚ),
          { capacity := (C:ℚ), tokens := (C:ℚ) - k, refill_rate := r, last_refill := t0 })
  | 0, _ => by simp [acquireSeq, fullBucket]
  | k + 1, hk => by
    have ih := acquireSeq_full C r t0 k (by omega)
    have htok : (1:ℚ) ≤ (C:ℚ) - k := by
      have : ((k:ℚ) + 1) ≤ (C:ℚ) := by exact_mod_cast hk
      linarith
    have hacq := acquire_immediate
      { capacity := (C:ℚ), tokens := (C:ℚ) - k, refill_rate := r, last_refill := t0 } htok
    simp only [acquireSeq, ih, hacq]
    rw [List.replicate_succ']
    have : (C:ℚ) - k - 1 = (C:ℚ) - (k + 1 : ℕ) := by push_cast; ring
    rw [this]

/-- C4: from a full bucket of capacity `C ≥ 1` with positive rate `r`,
`C` consecutive `acquire()` calls at one instant complete without sleeping;
the `(C+1)`-th call sleeps exactly `1/r` (so at least `1/r`) and then
acquires; and every successful `acquire` takes exactly one token off the
lazily refilled count. -/
theorem C4_token_bucket (C : ℕ) (r t0 : ℚ) (hC : 1 ≤ C) (hr : 0 < r) :
    (acquireSeq t0 C (fullBucket C r t0) =
      some (List.replicate C (0:ℚ),
        { capacity := (C:ℚ), tokens := 0, refill_rate := r, last_refill := t0 })) ∧
    (acquire { capacity := (C:ℚ), tokens := 0, refill_rate := r, last_refill := t0 } t0 =
      some (1 / r,
        { capacity := (C:ℚ), tokens := 0, refill_rate := r, last_refill := t0 + 1 / r })) ∧
    (∀ (b : Bucket) (now w : ℚ) (b2 : Bucket), acquire b now = some (w, b2) →
      ∃ b1 : Bucket, 1 ≤ b1.tokens ∧ b2 = { b1 with tokens := b1.tokens - 1 }) := by
  refine ⟨?_, ?_, ?_⟩
  · have := acquireSeq_full C r t0 C le_rfl
    simpa [sub_self] using this
  · have := acquire_empty
      { capacity := (C:ℚ), tokens := 0, refill_rate := r, last_refill := t0 }
      hr (by show (1:ℚ) ≤ (C:ℚ); exact_mod_cast hC) rfl
    simpa using this
  · intro b now w b2 hacq
    rw [acquire_eq] at hacq
    by_cases h1 : 1 ≤ (refill b now).tokens
    · rw [if_pos h1] at hacq
      obtain ⟨-, h⟩ := Prod.mk.injEq .. ▸ Option.some.inj hacq
      exact ⟨refill b now, h1, h.symm⟩
    · rw [if_neg h1] at hacq
      set b'' := refill (refill b now)
        (now + (1 - (refill b now).tokens) / (refill b now).refill_rate) with hb''
      by_cases h2 : 1 ≤ b''.tokens
      · rw [if_pos h2] at hacq
        obtain ⟨-, h⟩ := Prod.mk.injEq .. ▸ Option.some.inj hacq
        exact ⟨b'', h2, h.symm⟩
      · rw [if_neg h2] at hacq
        exact absurd hacq (by simp)

/-- Witness for C4 at `C = 2`, `r = 1/2`, `t0 = 0`. -/
theorem C4_token_bucket_witness :
    (acquireSeq 0 2 (fullBucket 2 (1/2) 0) =
      some (List.replicate 2 (0:ℚ),
        { capacity := ((2:ℕ):ℚ), tokens := 0, refill_rate := 1/2, last_refill := 0 })) ∧
    (acquire { capacity := ((2:ℕ):ℚ), tokens := 0, refill_rate := 1/2, last_refill := 0 } 0 =
      some (1 / (1/2),
        { capacity := ((2:ℕ):ℚ), tokens := 0, refill_rate := 1/2,
          last_refill := 0 + 1 / (1/2) })) ∧
    (∀ (b : Bucket) (now w : ℚ) (b2 : Bucket), acquire b now = some (w, b2) →
      ∃ b1 : Bucket, 1 ≤ b1.tokens ∧ b2 = { b1 with tokens := b1.tokens - 1 }) :=
  C4_token_bucket 2 (1/2) 0 (by norm_num) (by norm_num)

end PlotLine
